import Mathlib

/-!
# Verification of the pytiled_parser tile-grid codec, GID registry,
# object parser, properties codec and template-injection pass

Shallow embedding of the relevant parts of `pytiled_parser` (the source
under scrutiny mixes several generations of the library: the legacy XML
parser `parser.py`/`utilities.py`/`objects.py`, the attrs-based modules
`layer.py`/`tiled_object.py`/`properties.py`/`tiled_map.py`, and the
newer split parsers under `parsers/json` and `parsers/tmx`).

Modelling conventions:
* Python ints are `Nat` (tile ids, gids, byte values are unsigned in the
  wire format) or `Int` where sign can occur; numeric wire payload that is
  only copied, never computed with (coordinates, rotation), is carried as
  `Int`.
* Fallible Python code (raise sites) returns `Except PyErr α`; each
  `PyErr` constructor corresponds to one class of exception raised by the
  Python runtime or by an explicit `raise`.
* External-library byte transformations (zlib/gzip/zstd compression and
  base64 transport, all from the Python standard library, not from this
  repository) are taken as explicit function parameters: every theorem
  below either holds for all of them or only exercises the identity
  (no-compression) path.
* Python `dict`s are association lists in insertion order: assignment to
  a fresh key appends, assignment to an existing key overwrites in place,
  `.keys()` / `.values()` are the projections, `max`/`in` as on lists.
-/

namespace PyTiled

/-- One constructor per class of exception observed at the raise sites of
the embedded code: `valueError` (explicit `raise ValueError`, `int()`
parse failures, `max()` of an empty sequence, `bytes()` of an out-of-range
int), `typeError` (operations on a value of the wrong runtime type),
`keyError` (indexing a dict with a missing key), `runtimeError` (explicit
`raise RuntimeError`), `fileNotFoundError` (`open()` on a missing path). -/
inductive PyErr where
  | valueError
  | typeError
  | keyError
  | runtimeError
  | fileNotFoundError
  deriving Repr, DecidableEq

/-- Result type of fallible embedded code. -/
abbrev Exc (α : Type) : Type := Except PyErr α

instance {ε α : Type} [DecidableEq ε] [DecidableEq α] : DecidableEq (Except ε α) := fun x y =>
  match x, y with
  | .ok a, .ok b =>
    if h : a = b then .isTrue (by rw [h]) else .isFalse (by intro hc; cases hc; exact h rfl)
  | .error a, .error b =>
    if h : a = b then .isTrue (by rw [h]) else .isFalse (by intro hc; cases hc; exact h rfl)
  | .ok _, .error _ => .isFalse (by intro hc; cases hc)
  | .error _, .ok _ => .isFalse (by intro hc; cases hc)

/-- Append an element to the last row of a grid (the effect of
`tile_grid[row_count].append(item)`, since `row_count` always indexes the
last row of `tile_grid` in the loops below). -/
def appendLast {α : Type} (grid : List (List α)) (x : α) : List (List α) :=
  match grid with
  | [] => [[x]]
  | [row] => [row ++ [x]]
  | row :: rest => row :: appendLast rest x

/-- The loop body of `_convert_raw_tile_layer_data`
(`pytiled_parser/layer.py` lines 214-235 and, identically,
`parsers/json/layer.py` lines 97-118): `cc` is `column_count` before the
current iteration, `total` is `len(data)`.  A new (empty) row is opened
after every `layer_width`-th item except after the very last item. -/
def convertLoop (width total : Nat) : List Nat → Nat → List (List Nat) → List (List Nat)
  | [], _, grid => grid
  | item :: rest, cc, grid =>
    let cc' := cc + 1
    let grid' := appendLast grid item
    if cc' % width == 0 && cc' < total then
      convertLoop width total rest cc' (grid' ++ [[]])
    else
      convertLoop width total rest cc' grid'

/-- `_convert_raw_tile_layer_data(data, layer_width)`: fold a flat list of
tile ids into rows of `layer_width`, keeping whatever remains at the end
as a final (possibly shorter) row.  There is no divisibility check in the
source.  (For `layer_width = 0` the Python `%` would raise
`ZeroDivisionError`; every theorem below assumes `0 < width`.) -/
def convert_raw_tile_layer_data (data : List Nat) (width : Nat) : List (List Nat) :=
  convertLoop width data.length data 0 [[]]

/-- The byte-fold of `_decode_tile_layer_data` (`parsers/json/layer.py`
lines 166-179, identical in `layer.py` lines 268-282): consume the byte
stream four bytes at a time, little-endian, appending one integer per
complete group; a trailing group of fewer than four bytes is discarded
(the loop only appends when `byte_count % 4 == 0`).  `bc` is `byte_count`,
`iv` is `int_value`. -/
def foldBytesLE : List Nat → Nat → Nat → List Nat
  | [], _, _ => []
  | b :: rest, bc, iv =>
    let iv' := iv + b <<< (bc * 8)
    if (bc + 1) % 4 == 0 then
      iv' :: foldBytesLE rest 0 0
    else
      foldBytesLE rest (bc + 1) iv'

/-- Reinterpretation of a byte stream as unsigned 32-bit little-endian
integers, as performed by the decoder. -/
def decodeBytes (bytes : List Nat) : List Nat :=
  foldBytesLE bytes 0 0

/-- `_decode_tile_layer_data(data, compression, layer_width)` from
`parsers/json/layer.py` lines 134-180, modelled at the byte level: `data`
is the byte string obtained from `base64.b64decode` (base64 transport is a
stdlib bijection between the wire string and these bytes and is elided).
`zlibD`/`gzipD` are `zlib.decompress`/`gzip.decompress`; `zstdD` is
`some zstd.decompress` when the optional `zstd` module is importable and
`none` otherwise (the raise site `"zstd compression support is not
installed"` is a `ValueError`).  Any compression string other than
`"zlib"`, `"gzip"`, `"zstd"` falls through to the `else` branch: the bytes
are used as they are. -/
def decode_tile_layer_data (zlibD gzipD : List Nat → Exc (List Nat))
    (zstdD : Option (List Nat → List Nat)) (data : List Nat)
    (compression : String) (width : Nat) : Exc (List (List Nat)) :=
  let unzipped : Exc (List Nat) :=
    if compression == "zlib" then zlibD data
    else if compression == "gzip" then gzipD data
    else if compression == "zstd" then
      match zstdD with
      | none => .error .valueError
      | some f => .ok (f data)
    else .ok data
  match unzipped with
  | .error e => .error e
  | .ok bytes => .ok (convert_raw_tile_layer_data (decodeBytes bytes) width)

/-- Python `bytes(list_of_ints)`: one byte per list element, raising
`ValueError` when an element is not in `0..255`. -/
def pyBytes (l : List Nat) : Exc (List Nat) :=
  if l.all (fun i => i < 256) then .ok l else .error .valueError

/-- `_encode_tile_layer_data(data, compression)` from
`parsers/json/layer.py` lines 183-214, at the byte level (the final
`base64.b64encode(..).decode("UTF-8")` transport is elided as in the
decoder).  The byte string is `bytes([i for sub in data for i in sub])` —
ONE byte per tile id — then optionally compressed.  `zlibC`/`gzipC` are
`zlib.compress`/`gzip.compress`; `zstdC` as in the decoder. -/
def encode_tile_layer_data (zlibC gzipC : List Nat → List Nat)
    (zstdC : Option (List Nat → List Nat)) (data : List (List Nat))
    (compression : Option String) : Exc (List Nat) :=
  match pyBytes data.flatten with
  | .error e => .error e
  | .ok dataBytes =>
    if compression == some "zlib" then .ok (zlibC dataBytes)
    else if compression == some "gzip" then .ok (gzipC dataBytes)
    else if compression == some "zstd" then
      match zstdC with
      | none => .error .valueError
      | some f => .ok (f dataBytes)
    else .ok dataBytes

/-! ## GID registry (`pytiled_parser/utilities.py`, data model from `objects.py`) -/

/-- Python `d.get(k)` / `d[k]` lookup on an insertion-ordered dict. -/
def dictGet {κ α : Type} [BEq κ] (d : List (κ × α)) (k : κ) : Option α :=
  (d.find? (fun p => p.1 == k)).map (fun p => p.2)

/-- Tile record of `objects.py` restricted to the fields the registry
claims exercise: the local `id` and the optional free-form `type` tag
(used in the examples below to tag which tileset a tile belongs to). -/
structure Tile09 where
  id : Nat
  type : Option String
  deriving Repr, DecidableEq

/-- Tileset record of `objects.py` restricted to the fields
`get_tile_by_gid` reads: the sparse local-id -> Tile mapping, which is
`Optional` in the source (`tiles: Optional[Dict[int, Tile]]`). -/
structure TileSet09 where
  name : String
  tiles : Option (List (Nat × Tile09))
  deriving Repr, DecidableEq

/-- `_get_tile_set_key(gid, tile_set_keys)` (`utilities.py` lines 37-49):
`max([key for key in tile_set_keys if key <= gid])`.  Python `max` raises
`ValueError` on an empty sequence. -/
def get_tile_set_key (gid : Nat) (tile_set_keys : List Nat) : Exc Nat :=
  match (tile_set_keys.filter (fun key => key ≤ gid)).max? with
  | none => .error .valueError
  | some m => .ok m

/-- `get_tile_by_gid(gid, tile_sets)` (`utilities.py` lines 52-69): find
the containing tileset's key, index the dict with it, and `get` the tile
at local id `gid - key` (`None` when absent, also when the tileset has no
`tiles` dict at all). -/
def get_tile_by_gid (gid : Nat) (tile_sets : List (Nat × TileSet09)) : Exc (Option Tile09) :=
  match get_tile_set_key gid (tile_sets.map Prod.fst) with
  | .error e => .error e
  | .ok key =>
    match dictGet tile_sets key with
    | none => .error .keyError
    | some tile_set =>
      match tile_set.tiles with
      | some tiles => .ok (dictGet tiles (gid - key))
      | none => .ok none

/-- Lookup of a local id in a tileset's sparse tile mapping: `none` both
for a missing entry and for an absent `tiles` dict. -/
def tileLookup (ts : TileSet09) (localId : Nat) : Option Tile09 :=
  match ts.tiles with
  | some tiles => dictGet tiles localId
  | none => none

/-- Observer for stating the `(tileset, local_id)` pair the resolution
algorithm picks: the same key selection and dict lookup as
`get_tile_by_gid`, but reporting the chosen tileset's name together with
the computed local id instead of looking the local id up in the sparse
tile mapping. -/
def resolve_pair (gid : Nat) (tile_sets : List (Nat × TileSet09)) : Exc (String × Nat) :=
  match get_tile_set_key gid (tile_sets.map Prod.fst) with
  | .error e => .error e
  | .ok key =>
    match dictGet tile_sets key with
    | none => .error .keyError
    | some tile_set => .ok (tile_set.name, gid - key)

/-- Example registry from the spec: tilesets at firstgid 1 (tile_count 5),
10 (tile_count 30), 50 (tile_count 20), each with a Tile record exactly at
local ids `0 .. tile_count - 1`, tagged with its tileset's name. -/
def mkTiles (count : Nat) (tag : String) : List (Nat × Tile09) :=
  (List.range count).map (fun i => (i, ⟨i, some tag⟩))

def exampleReg : List (Nat × TileSet09) :=
  [(1, ⟨"ts1", some (mkTiles 5 "ts1")⟩),
   (10, ⟨"ts2", some (mkTiles 30 "ts2")⟩),
   (50, ⟨"ts3", some (mkTiles 20 "ts3")⟩)]

/-! ## Template-injection pass
(`pytiled_parser/tiled_map.py` lines 167-196; the identical pass appears
in `parsers/tmx/tiled_map.py` lines 69-98) -/

/-- Python dict assignment `d[k] = v`: overwrite in place when the key
exists, append otherwise. -/
def dictSet {κ α : Type} [BEq κ] (d : List (κ × α)) (k : κ) (v : α) : List (κ × α) :=
  if d.any (fun p => p.1 == k) then
    d.map (fun p => if p.1 == k then (k, v) else p)
  else d ++ [(k, v)]

/-- The fields of the raw tileset dict a template bundles
(`tiled_object.new_tileset`) that the injection pass reads: its `name`
and its `tilecount`. -/
structure RawTilesetData where
  name : String
  tilecount : Nat
  deriving Repr, DecidableEq

/-- Registered tileset restricted to the fields the injection pass reads:
`name`, `tile_count` and `firstgid`. -/
structure Tileset2 where
  name : String
  tile_count : Nat
  firstgid : Nat
  deriving Repr, DecidableEq

/-- Modelled from the spec: the tileset parser the injection pass calls
with an explicit firstgid (`parsers.tmx.tileset.parse`, imported by
`parsers/tmx/tiled_map.py` but absent from the source tree; the in-tree
`pytiled_parser/tileset.py` `cast` has a stale two-parameter signature).
Per the spec it "register[s] the injected tileset there": it produces the
tileset described by the raw dict, carrying the firstgid it is registered
under. -/
def parse_tileset_model (raw : RawTilesetData) (firstgid : Nat) : Tileset2 :=
  ⟨raw.name, raw.tilecount, firstgid⟩

/-- A TileObject as seen by the injection pass: its gid and the pending
tileset payload (`new_tileset` / `new_tileset_path`) set by the object
parser when a template bundled a tileset. -/
structure PassObj where
  gid : Nat
  new_tileset : Option RawTilesetData
  new_tileset_path : Option (List String)
  deriving Repr, DecidableEq

/-- The body of the injection loop for one TileObject (`tiled_map.py`
lines 171-196): skip when no pending tileset; otherwise scan the
registered tilesets in insertion order for one with the same `name`.  On
a match, rewrite the gid against the existing tileset's firstgid; on no
match, allocate `new_firstgid = max(keys) + tile_count of the tileset at
max(keys)` (Python `max` raises `ValueError` on an empty registry),
register the parsed tileset there and rewrite the gid.  The pending
payload is cleared in both branches. -/
def inject_step (reg : List (Nat × Tileset2)) (o : PassObj) :
    Exc (List (Nat × Tileset2) × PassObj) :=
  match o.new_tileset with
  | none => .ok (reg, o)
  | some nt =>
    match (reg.map Prod.snd).find? (fun val => val.name == nt.name) with
    | some already_loaded =>
      .ok (reg, { o with gid := o.gid + (already_loaded.firstgid - 1),
                         new_tileset := none, new_tileset_path := none })
    | none =>
      match (reg.map Prod.fst).max? with
      | none => .error .valueError
      | some highest_firstgid =>
        match dictGet reg highest_firstgid with
        | none => .error .keyError
        | some last_tileset =>
          let new_firstgid := highest_firstgid + last_tileset.tile_count
          .ok (dictSet reg new_firstgid (parse_tileset_model nt new_firstgid),
               { o with gid := o.gid + (new_firstgid - 1),
                        new_tileset := none, new_tileset_path := none })

/-- The full pass: every TileObject of every ObjectLayer, in document
order, threaded through `inject_step`. -/
def inject_pass (reg : List (Nat × Tileset2)) :
    List PassObj → Exc (List (Nat × Tileset2) × List PassObj)
  | [] => .ok (reg, [])
  | o :: rest =>
    match inject_step reg o with
    | .error e => .error e
    | .ok (reg1, o1) =>
      match inject_pass reg1 rest with
      | .error e => .error e
      | .ok (reg2, os) => .ok (reg2, o1 :: os)

/-! ## Properties codec
(`pytiled_parser/properties.py` lines 33-55; `parse_color` from
`pytiled_parser/util.py`) -/

/-- RGBA color record (`common_types.Color`), one byte per channel. -/
structure Color where
  red : Nat
  green : Nat
  blue : Nat
  alpha : Nat
  deriving Repr, DecidableEq

/-- Value of one hexadecimal digit character, `none` for anything else. -/
def hexVal? (c : Char) : Option Nat :=
  if ('0' ≤ c && c ≤ '9') then some (c.toNat - 48)
  else if ('a' ≤ c && c ≤ 'f') then some (c.toNat - 87)
  else if ('A' ≤ c && c ≤ 'F') then some (c.toNat - 55)
  else none

def pyIntHexCore : List Char → Nat → Exc Nat
  | [], acc => .ok acc
  | c :: rest, acc =>
    match hexVal? c with
    | none => .error .valueError
    | some v => pyIntHexCore rest (acc * 16 + v)

/-- Python `int(s, 16)` on a slice of a color string: raises `ValueError`
unless the slice is a nonempty run of hex digits.  (Python additionally
tolerates whitespace, a sign and an `0x` prefix, shapes a two-character
slice of a color literal never has.) -/
def pyIntHex (s : List Char) : Exc Nat :=
  if s.isEmpty then .error .valueError else pyIntHexCore s 0

/-- `parse_color(color)` from `pytiled_parser/util.py`: strip the leading
`#` when the length is odd, then read `RRGGBB` (alpha 255) or `AARRGGBB`
(alpha first); any other length raises `ValueError`. -/
def parse_color (s : String) : Exc Color :=
  let l := if s.length % 2 == 1 then s.toList.drop 1 else s.toList
  if l.length == 6 then
    match pyIntHex (l.take 2), pyIntHex ((l.drop 2).take 2),
        pyIntHex ((l.drop 4).take 2) with
    | .ok r, .ok g, .ok b => .ok ⟨r, g, b, 255⟩
    | .error e, _, _ => .error e
    | _, .error e, _ => .error e
    | _, _, .error e => .error e
  else if l.length == 8 then
    match pyIntHex ((l.drop 2).take 2), pyIntHex ((l.drop 4).take 2),
        pyIntHex ((l.drop 6).take 2), pyIntHex (l.take 2) with
    | .ok r, .ok g, .ok b, .ok a => .ok ⟨r, g, b, a⟩
    | .error e, _, _, _ => .error e
    | _, .error e, _, _ => .error e
    | _, _, .error e, _ => .error e
    | _, _, _, .error e => .error e
  else .error .valueError

/-- Raw wire value of a property (`RawValue = Union[float, str, bool]`;
the numeric carrier is irrelevant — values are only moved, never computed
with). -/
inductive RawValue where
  | str (s : String)
  | num (n : Int)
  | boolean (b : Bool)
  deriving Repr, DecidableEq

/-- A raw `(name, type, value)` property triple. -/
structure RawProperty where
  name : String
  type : String
  value : RawValue
  deriving Repr, DecidableEq

/-- A converted property value: `file` values become paths, `color`
values become `Color`, everything else keeps the raw wire value. -/
inductive PropertyValue where
  | raw (v : RawValue)
  | path (p : String)
  | colorV (c : Color)
  deriving Repr, DecidableEq

/-- The per-triple conversion inside `properties.cast`: `file` values are
wrapped as paths (`Path()` of a non-string raises `TypeError`), `color`
values are parsed (`parse_color` of a non-string raises inside `len()`),
and every other type tag — recognized or not — keeps the raw value. -/
def cast_property_value (p : RawProperty) : Exc PropertyValue :=
  if p.type == "file" then
    match p.value with
    | .str s => .ok (.path s)
    | _ => .error .typeError
  else if p.type == "color" then
    match p.value with
    | .str s =>
      match parse_color s with
      | .error e => .error e
      | .ok c => .ok (.colorV c)
    | _ => .error .typeError
  else .ok (.raw p.value)

/-- `properties.cast(raw_properties)` (`properties.py` lines 33-55): fold
the triples in order into a dict keyed by name. -/
def properties_cast : List RawProperty → List (String × PropertyValue) →
    Exc (List (String × PropertyValue))
  | [], final => .ok final
  | p :: rest, final =>
    match cast_property_value p with
    | .error e => .error e
    | .ok v => properties_cast rest (dictSet final p.name v)

/-! ## TiledObject parser
(`pytiled_parser/tiled_object.py`: `_get_common_attributes`, the seven
casters, `_get_caster` lines 372-403 and `cast` lines 406-449; the newer
`parsers/json/tiled_object.py` `parse` has the same control flow) -/

/-- Raw text payload of a Text object (all keys but `text` optional). -/
structure RawText where
  text : String
  color : Option String := none
  fontfamily : Option String := none
  pixelsize : Option Int := none
  bold : Option Bool := none
  italic : Option Bool := none
  strikeout : Option Bool := none
  underline : Option Bool := none
  kerning : Option Bool := none
  halign : Option String := none
  valign : Option String := none
  wrap : Option Bool := none
  deriving Repr, DecidableEq

/-- Parsed Text object with the source's defaults. -/
structure TextObj where
  text : String
  color : Color := ⟨255, 255, 255, 255⟩
  font_family : String := "sans-serif"
  font_size : Int := 16
  bold : Bool := false
  italic : Bool := false
  kerning : Bool := true
  strike_out : Bool := false
  underline : Bool := false
  horizontal_align : String := "left"
  vertical_align : String := "top"
  wrap : Bool := false
  deriving Repr, DecidableEq

/-- A raw Tiled object record.  `id`, coordinates, size, `rotation`
(field `rot` here), `visible`, `name` and `type` are mandatory wire keys;
the rest model `raw.get(...)` access, where `none` is an absent key.
Numeric payload that is only copied is carried as `Int`. -/
structure RawTiledObject where
  id : Nat
  gid : Option Nat := none
  template : Option String := none
  x : Int := 0
  y : Int := 0
  width : Int := 0
  height : Int := 0
  rot : Int := 0
  visible : Bool := true
  name : String := ""
  type : Option String := none
  properties : Option (List RawProperty) := none
  ellipse : Option Bool := none
  point : Option Bool := none
  polygon : Option (List (Int × Int)) := none
  polyline : Option (List (Int × Int)) := none
  text : Option RawText := none
  deriving Repr, DecidableEq

/-- The `object` dict stored in a template file: the keys it carries
(`some`) are merged into the host record by `cast`'s loop
`for key in loaded_template: if key != "id": raw[key] = ...`. -/
structure TemplatePatch where
  id : Option Nat := none
  gid : Option Nat := none
  template : Option String := none
  x : Option Int := none
  y : Option Int := none
  width : Option Int := none
  height : Option Int := none
  rot : Option Int := none
  visible : Option Bool := none
  name : Option String := none
  type : Option String := none
  properties : Option (List RawProperty) := none
  ellipse : Option Bool := none
  point : Option Bool := none
  polygon : Option (List (Int × Int)) := none
  polyline : Option (List (Int × Int)) := none
  text : Option RawText := none
  deriving Repr, DecidableEq

/-- The `tileset` entry of a template file (only its `source` path is
read). -/
structure RawTilesetRef where
  source : String
  deriving Repr, DecidableEq

/-- A loaded template file: an optional bundled-tileset reference and the
object dict. -/
structure TemplateFile where
  tileset : Option RawTilesetRef := none
  object : TemplatePatch
  deriving Repr, DecidableEq

/-- The merge loop of `cast`: every key present in the template's object
except `id` overwrites the host record's value. -/
def applyPatch (raw : RawTiledObject) (p : TemplatePatch) : RawTiledObject where
  id := raw.id
  gid := match p.gid with | some v => some v | none => raw.gid
  template := match p.template with | some v => some v | none => raw.template
  x := p.x.getD raw.x
  y := p.y.getD raw.y
  width := p.width.getD raw.width
  height := p.height.getD raw.height
  rot := p.rot.getD raw.rot
  visible := p.visible.getD raw.visible
  name := p.name.getD raw.name
  type := match p.type with | some v => some v | none => raw.type
  properties := match p.properties with | some v => some v | none => raw.properties
  ellipse := match p.ellipse with | some v => some v | none => raw.ellipse
  point := match p.point with | some v => some v | none => raw.point
  polygon := match p.polygon with | some v => some v | none => raw.polygon
  polyline := match p.polyline with | some v => some v | none => raw.polyline
  text := match p.text with | some v => some v | none => raw.text

/-- Python truthiness of `raw.get(key)` for each relevant value shape:
a missing key, `0`, `False`, an empty list and an empty string are all
falsy. -/
def truthyNat : Option Nat → Bool
  | some n => n != 0
  | none => false

def truthyBool : Option Bool → Bool
  | some b => b
  | none => false

def truthyList {α : Type} : Option (List α) → Bool
  | some l => !l.isEmpty
  | none => false

def truthyStr : Option String → Bool
  | some s => !s.isEmpty
  | none => false

/-- Truthiness of the `text` payload dict: it always carries the
mandatory `text` key, so a present dict is nonempty, hence truthy. -/
def truthyText : Option RawText → Bool
  | some _ => true
  | none => false

/-- Shared fields of every parsed object (`TiledObject` base class). -/
structure ObjCommon where
  id : Nat
  coordinates : Int × Int
  size : Int × Int
  rot : Int
  visible : Bool
  name : String
  type : Option String
  properties : List (String × PropertyValue)
  deriving Repr, DecidableEq

/-- The seven object shapes as a tagged union (the source uses
subclasses of `TiledObject`). -/
inductive ObjVariant where
  | rectangleV
  | ellipseV
  | pointV
  | polygonV (points : List (Int × Int))
  | polylineV (points : List (Int × Int))
  | textV (t : TextObj)
  | tileV (gid : Nat) (new_tileset : Option RawTilesetData)
      (new_tileset_path : Option (List String))
  deriving Repr, DecidableEq

structure TiledObj where
  common : ObjCommon
  variant : ObjVariant
  deriving Repr, DecidableEq

/-- `_get_common_attributes(raw_tiled_object)` (lines 200-223): the
shared fields, plus the properties dict when present (whose conversion
can raise). -/
def get_common_attributes (raw : RawTiledObject) : Exc ObjCommon :=
  let base : ObjCommon :=
    ⟨raw.id, (raw.x, raw.y), (raw.width, raw.height), raw.rot, raw.visible,
     raw.name, raw.type, []⟩
  match raw.properties with
  | none => .ok base
  | some props =>
    match properties_cast props [] with
    | .error e => .error e
    | .ok m => .ok { base with properties := m }

def cast_ellipse (raw : RawTiledObject) : Exc TiledObj :=
  match get_common_attributes raw with
  | .error e => .error e
  | .ok c => .ok ⟨c, .ellipseV⟩

def cast_rectangle (raw : RawTiledObject) : Exc TiledObj :=
  match get_common_attributes raw with
  | .error e => .error e
  | .ok c => .ok ⟨c, .rectangleV⟩

def cast_point (raw : RawTiledObject) : Exc TiledObj :=
  match get_common_attributes raw with
  | .error e => .error e
  | .ok c => .ok ⟨c, .pointV⟩

/-- `_cast_tile(raw, new_tileset, new_tileset_path)` (lines 262-282):
reads `raw["gid"]` (a missing key would be a `KeyError`) and attaches
the pending tileset payload. -/
def cast_tile (raw : RawTiledObject) (new_tileset : Option RawTilesetData)
    (new_tileset_path : Option (List String)) : Exc TiledObj :=
  match raw.gid with
  | none => .error .keyError
  | some gid =>
    match get_common_attributes raw with
    | .error e => .error e
    | .ok c => .ok ⟨c, .tileV gid new_tileset new_tileset_path⟩

def cast_polygon (raw : RawTiledObject) : Exc TiledObj :=
  match raw.polygon with
  | none => .error .keyError
  | some pts =>
    match get_common_attributes raw with
    | .error e => .error e
    | .ok c => .ok ⟨c, .polygonV pts⟩

def cast_polyline (raw : RawTiledObject) : Exc TiledObj :=
  match raw.polyline with
  | none => .error .keyError
  | some pts =>
    match get_common_attributes raw with
    | .error e => .error e
    | .ok c => .ok ⟨c, .polylineV pts⟩

/-- The optional-attribute cascade of `_cast_text` (lines 319-369); only
the `color` step can raise (inside `parse_color`). -/
def cast_text_payload (rt : RawText) : Exc TextObj :=
  let t0 : TextObj := { text := rt.text }
  match (match rt.color with
         | none => Except.ok t0
         | some cs =>
           match parse_color cs with
           | .error e => .error e
           | .ok c => .ok { t0 with color := c }) with
  | .error e => .error e
  | .ok t1 =>
    let t2 := match rt.fontfamily with | none => t1 | some v => { t1 with font_family := v }
    let t3 := match rt.pixelsize with | none => t2 | some v => { t2 with font_size := v }
    let t4 := match rt.bold with | none => t3 | some v => { t3 with bold := v }
    let t5 := match rt.italic with | none => t4 | some v => { t4 with italic := v }
    let t6 := match rt.kerning with | none => t5 | some v => { t5 with kerning := v }
    let t7 := match rt.strikeout with | none => t6 | some v => { t6 with strike_out := v }
    let t8 := match rt.underline with | none => t7 | some v => { t7 with underline := v }
    let t9 := match rt.halign with | none => t8 | some v => { t8 with horizontal_align := v }
    let t10 := match rt.valign with | none => t9 | some v => { t9 with vertical_align := v }
    let t11 := match rt.wrap with | none => t10 | some v => { t10 with wrap := v }
    .ok t11

def cast_text (raw : RawTiledObject) : Exc TiledObj :=
  match raw.text with
  | none => .error .keyError
  | some rt =>
    match get_common_attributes raw with
    | .error e => .error e
    | .ok c =>
      match cast_text_payload rt with
      | .error e => .error e
      | .ok t => .ok ⟨c, .textV t⟩

/-- `_get_caster(raw_tiled_object)` (lines 372-403) combined with the
immediate application `_get_caster(raw)(raw)`: first truthy discriminator
in source order ellipse, point, gid, polygon, polyline, text, else
Rectangle.  (Its gid branch exists in the source but is unreachable from
`cast`, which returns on a truthy gid before ever calling
`_get_caster`.) -/
def get_caster_apply (raw : RawTiledObject) : Exc TiledObj :=
  if truthyBool raw.ellipse then cast_ellipse raw
  else if truthyBool raw.point then cast_point raw
  else if truthyNat raw.gid then cast_tile raw none none
  else if truthyList raw.polygon then cast_polygon raw
  else if truthyList raw.polyline then cast_polyline raw
  else if truthyText raw.text then cast_text raw
  else cast_rectangle raw

/-- The tail of `cast` after the template block (lines 446-449): a truthy
`gid` short-circuits to `_cast_tile` (carrying the pending tileset);
otherwise dispatch through `_get_caster`. -/
def castAfterTemplate (raw : RawTiledObject) (newTs : Option RawTilesetData)
    (newTsPath : Option (List String)) : Exc TiledObj :=
  if truthyNat raw.gid then cast_tile raw newTs newTsPath
  else get_caster_apply raw

/-- `cast(raw_tiled_object, parent_dir)` (lines 406-449).  Paths are
modelled as component lists: `parent_dir / t` is `d ++ [t]` and
`Path.parent` is `dropLast`.  `fsT`/`fsTs` model the filesystem reads
(`open` + `json.load` of template and tileset files; a missing file is
`FileNotFoundError`).  With a truthy `template`: no `parent_dir` raises
`RuntimeError`; otherwise the template is loaded, its bundled tileset (if
any) is loaded and kept as the pending payload, and its object fields are
merged over the host record (except `id`). -/
def cast (fsT : List String → Option TemplateFile)
    (fsTs : List String → Option RawTilesetData) (raw : RawTiledObject)
    (parent_dir : Option (List String)) : Exc TiledObj :=
  if truthyStr raw.template then
    match parent_dir with
    | none => .error .runtimeError
    | some d =>
      let tname := (raw.template).getD ""
      let template_path := d ++ [tname]
      match fsT template_path with
      | none => .error .fileNotFoundError
      | some tf =>
        let tsRes : Exc (Option RawTilesetData × Option (List String)) :=
          match tf.tileset with
          | some ref =>
            let tileset_path := template_path.dropLast ++ [ref.source]
            match fsTs tileset_path with
            | none => .error .fileNotFoundError
            | some tsData => .ok (some tsData, some tileset_path.dropLast)
          | none => .ok (none, none)
        match tsRes with
        | .error e => .error e
        | .ok (newTs, newTsPath) =>
          castAfterTemplate (applyPatch raw tf.object) newTs newTsPath
  else castAfterTemplate raw none none

/-- Kind tags for the seven variants, for stating dispatch claims. -/
inductive VKind where
  | rectangleK
  | ellipseK
  | pointK
  | polygonK
  | polylineK
  | textK
  | tileK
  deriving Repr, DecidableEq

def kindOf : ObjVariant → VKind
  | .rectangleV => .rectangleK
  | .ellipseV => .ellipseK
  | .pointV => .pointK
  | .polygonV _ => .polygonK
  | .polylineV _ => .polylineK
  | .textV _ => .textK
  | .tileV _ _ _ => .tileK

/-- Dispatch priority as the (amended) claim words it: gid-present
(truthy) first, then ellipse, point, polygon, polyline, text, else
Rectangle — first match wins. -/
def dispatch_kind_spec (raw : RawTiledObject) : VKind :=
  if truthyNat raw.gid then .tileK
  else if truthyBool raw.ellipse then .ellipseK
  else if truthyBool raw.point then .pointK
  else if truthyList raw.polygon then .polygonK
  else if truthyList raw.polyline then .polylineK
  else if truthyText raw.text then .textK
  else .rectangleK

/-- C3 counterexample input: a record carrying both a `point` marker and
a truthy `gid`. -/
def pgRecord : RawTiledObject :=
  { id := 1, gid := some 5, point := some true }

/-- C8 witness inputs: a host record referencing a template that bundles
a tileset and sets a gid. -/
def rawT0 : RawTiledObject :=
  { id := 7, template := some "tpl.json" }

def tf0 : TemplateFile :=
  { tileset := some ⟨"trees.json"⟩, object := { gid := some 2 } }

def fsT0 : List String → Option TemplateFile :=
  fun p => if p = ["maps", "tpl.json"] then some tf0 else none

def fsTs0 : List String → Option RawTilesetData :=
  fun p => if p = ["maps", "trees.json"] then some ⟨"trees", 3⟩ else none

/-- C10 witness input: an `int`, an unrecognized `mystery` tag, and a
`bool` reusing the first name. -/
def props0 : List RawProperty :=
  [⟨"a", "int", .num 3⟩, ⟨"b", "mystery", .str "x"⟩, ⟨"a", "bool", .boolean true⟩]

/-! ## Encoding/compression pairing validation
(`pytiled_parser/parser.py` lines 15-103, the legacy XML path, and the
data branch of `_cast_tile_layer`, `pytiled_parser/layer.py` lines
386-406 — identical to `_parse_tile_layer` in `parsers/json/layer.py`) -/

/-- Sequence a fallible function over a list, stopping at the first
error (the effect of a Python loop whose body may raise). -/
def mapExc {α β : Type} (f : α → Exc β) : List α → Exc (List β)
  | [] => .ok []
  | a :: rest =>
    match f a with
    | .error e => .error e
    | .ok b =>
      match mapExc f rest with
      | .error e => .error e
      | .ok bs => .ok (b :: bs)

/-- Python `int(s)`: optional surrounding whitespace, optional sign,
decimal digits; anything else raises `ValueError`.  (Python also accepts
underscore digit separators; CSV tile data never contains them.) -/
def pyInt (s : String) : Exc Int :=
  let t := s.trim
  let core := if t.startsWith "-" || t.startsWith "+" then t.drop 1 else t
  if core.length > 0 && core.all Char.isDigit then
    let v := core.foldl (fun acc c => acc * 10 + (c.toNat - 48)) 0
    .ok (if t.startsWith "-" then -(Int.ofNat v) else Int.ofNat v)
  else .error .valueError

/-- `_decode_csv_layer(data_text)` (`parser.py` lines 49-67): split on
newlines, drop the first and last (empty) entries produced by the wire
format's enclosing newlines, split each remaining line on commas, drop
empty tokens, parse the rest as integers — one row per line. -/
def decode_csv_layer (text : String) : Exc (List (List Int)) :=
  let lines := ((text.splitOn "\n").drop 1).dropLast
  mapExc (fun line =>
    mapExc pyInt (((line.splitOn ",")).filter (fun item => item ≠ ""))) lines

/-- The loop of `_decode_base64_data` (`parser.py` lines 28-45): build
the rows inline while folding bytes into 32-bit little-endian integers,
opening a new row after every `layer_width`-th integer; the final
`tile_grid.pop()` then removes the last row (empty when the data fits
exactly, a partial row otherwise).  `bc`/`iv`/`ic` are
`byte_count`/`int_value`/`int_count`. -/
def b64Loop (width : Nat) : List Nat → Nat → Nat → Nat → List (List Int) → List (List Int)
  | [], _, _, _, grid => grid
  | b :: rest, bc, iv, ic, grid =>
    let iv' := iv + b <<< (bc * 8)
    if (bc + 1) % 4 == 0 then
      let ic' := ic + 1
      let grid' := appendLast grid (Int.ofNat iv')
      if ic' % width == 0 then b64Loop width rest 0 0 ic' (grid' ++ [[]])
      else b64Loop width rest 0 0 ic' grid'
    else b64Loop width rest (bc + 1) iv' ic grid

/-- `_decode_base64_data(data_text, compression, layer_width)`
(`parser.py` lines 15-46): base64-decode (`b64`), decompress (only
`zlib`, `gzip` and `None` are handled; anything else raises
`ValueError`), then the row-building byte fold ending in `pop()`. -/
def decode_base64_data (zlibD gzipD : List Nat → Exc (List Nat))
    (b64 : String → Exc (List Nat)) (dataText : String)
    (compression : Option String) (width : Nat) : Exc (List (List Int)) :=
  match b64 dataText with
  | .error e => .error e
  | .ok unencoded =>
    let unzipped : Exc (List Nat) :=
      if compression == some "zlib" then zlibD unencoded
      else if compression == some "gzip" then gzipD unencoded
      else if compression == none then .ok unencoded
      else .error .valueError
    match unzipped with
    | .error e => .error e
    | .ok bytes => .ok ((b64Loop width bytes 0 0 0 [[]]).dropLast)

/-- `_decode_data(element, layer_width, encoding, compression)`
(`parser.py` lines 70-103): validate that the encoding is `base64` or
`csv`, that a non-`None` compression only appears with `base64`, and
that the compression is `gzip` or `zlib`; then dispatch to the CSV or
base64 decoder on the element's text. -/
def decode_data (zlibD gzipD : List Nat → Exc (List Nat))
    (b64 : String → Exc (List Nat)) (dataText : String) (width : Nat)
    (encoding : String) (compression : Option String) : Exc (List (List Int)) :=
  if !(["base64", "csv"].contains encoding) then .error .valueError
  else if compression.isSome && !(encoding == "base64") then .error .valueError
  else if compression.isSome &&
      !(compression == some "gzip" || compression == some "zlib") then
    .error .valueError
  else if encoding == "csv" then decode_csv_layer dataText
  else decode_base64_data zlibD gzipD b64 dataText compression width

/-- The `data` field of a raw JSON tile layer: a plain integer array
(when no `encoding` is given) or a base64 string. -/
inductive RawData where
  | ints (l : List Nat)
  | str (s : String)
  deriving Repr, DecidableEq

/-- The data branch of `_cast_tile_layer` (`layer.py` lines 396-406):
when an `encoding` key is present the string data is decoded through
`_decode_tile_layer_data` with `raw_layer["compression"]` (a missing
`compression` key raises `KeyError`); when no `encoding` key is present
the integer array is folded through `_convert_raw_tile_layer_data` and
the `compression` field is never read.  (A plain array under a present
encoding, or string data without one, would fail inside the Python
stdlib with a `TypeError`; Tiled never emits those shapes.) -/
def cast_tile_layer_data (zlibD gzipD : List Nat → Exc (List Nat))
    (zstdD : Option (List Nat → List Nat)) (b64 : String → Exc (List Nat))
    (encoding : Option String) (compression : Option String)
    (data : RawData) (width : Nat) : Exc (List (List Nat)) :=
  match encoding with
  | some _ =>
    match compression with
    | none => .error .keyError
    | some c =>
      match data with
      | .str s =>
        match b64 s with
        | .error e => .error e
        | .ok bytes => decode_tile_layer_data zlibD gzipD zstdD bytes c width
      | .ints _ => .error .typeError
  | none =>
    match data with
    | .ints l => .ok (convert_raw_tile_layer_data l width)
    | .str _ => .error .typeError

theorem appendLast_flatten {α : Type} (grid : List (List α)) (x : α) :
    (appendLast grid x).flatten = grid.flatten ++ [x] := by
  induction grid with
  | nil => simp [appendLast]
  | cons row rest ih =>
    cases rest with
    | nil => simp [appendLast]
    | cons r2 rest2 => simp [appendLast, ih]

theorem convertLoop_flatten (width total : Nat) (l : List Nat) (cc : Nat)
    (grid : List (List Nat)) :
    (convertLoop width total l cc grid).flatten = grid.flatten ++ l := by
  induction l generalizing cc grid with
  | nil => simp [convertLoop]
  | cons a l ih =>
    simp only [convertLoop]
    cases hb : ((cc + 1) % width == 0 && decide (cc + 1 < total)) with
    | true => simp [hb, ih, appendLast_flatten]
    | false => simp [hb, ih, appendLast_flatten]

example : convert_raw_tile_layer_data [1, 2, 3] 2 = [[1, 2], [3]] := by decide

example : convert_raw_tile_layer_data [1, 2, 3, 4] 2 = [[1, 2], [3, 4]] := by decide

example : convert_raw_tile_layer_data [] 2 = [[]] := by decide

example : decodeBytes [5, 0, 0, 0, 1, 1, 0, 0] = [5, 257] := by decide

example :
    decode_tile_layer_data (fun b => .ok b) (fun b => .ok b) none
      [5, 0, 0, 0] "" 1 = .ok [[5]] := by decide

example :
    encode_tile_layer_data (fun b => b) (fun b => b) none [[5]] none = .ok [5] := by
  decide

/-- C1: the claim `encode(decode(x)) == x` FAILS on the code, which is a
bug in the code, not in the spec: the decoder reinterprets the byte
stream as unsigned 32-bit little-endian integers, but the encoder
(`_encode_tile_layer_data`, `parsers/json/layer.py` line 198) emits each
tile id as a SINGLE byte via `bytes([i for sub in data for i in sub])`
(and would raise `ValueError` for any id at or above 256).  Evaluated here
at the failing input: wire bytes `05 00 00 00` (base64 `BQAAAA==`),
encoding `base64`, no compression, row width 1.  Decoding yields `[[5]]`;
re-encoding yields the single byte `05`, not the original four bytes.
The repository's own round-trip test
(`tests/test_layer.py::test_layer_serialization` over the `b64` cases)
asserts the inverse property the claim states. -/
theorem C1_encode_not_inverse_of_decode :
    decode_tile_layer_data (fun b => .ok b) (fun b => .ok b) none
        [5, 0, 0, 0] "" 1 = .ok [[5]] ∧
      encode_tile_layer_data (fun b => b) (fun b => b) none [[5]] none = .ok [5] ∧
      [5] ≠ [5, 0, 0, 0] := by
  refine ⟨by decide, by decide, by decide⟩

/-- C2 counterexample: decoding a flat sequence of length 3 with row
width 2 (length not a multiple of the width) does NOT fail — the decoder
returns the grid `[[1, 2], [3]]`, keeping the partial last row.  The
input is the byte stream for tile ids 1, 2, 3 under base64 encoding with
no compression; `_convert_raw_tile_layer_data` contains no divisibility
check. -/
theorem C2_short_row_does_not_fail :
    decode_tile_layer_data (fun b => .ok b) (fun b => .ok b) none
      [1, 0, 0, 0, 2, 0, 0, 0, 3, 0, 0, 0] "" 2 = .ok [[1, 2], [3]] := by
  decide

/-- C2 (amended): decoding a flat sequence of length L with row width
W > 0 never fails and never drops an item: the concatenation of the
produced rows is exactly the input sequence, so when `L mod W` is not 0
the final row is kept as a partial row of the remaining items. -/
theorem C2_decode_keeps_every_item (data : List Nat) (width : Nat) (_h : 0 < width) :
    (convert_raw_tile_layer_data data width).flatten = data := by
  unfold convert_raw_tile_layer_data
  rw [convertLoop_flatten]
  simp

theorem C2_decode_keeps_every_item_witness :
    0 < 2 ∧ (convert_raw_tile_layer_data [1, 2, 3] 2).flatten = [1, 2, 3] :=
  ⟨by decide, C2_decode_keeps_every_item [1, 2, 3] 2 (by decide)⟩

theorem dictGet_of_mem_keys {κ α : Type} [BEq κ] [LawfulBEq κ]
    (d : List (κ × α)) (k : κ) (h : k ∈ d.map Prod.fst) :
    ∃ v, dictGet d k = some v := by
  induction d with
  | nil => simp at h
  | cons p rest ih =>
    by_cases hp : p.1 = k
    · exact ⟨p.2, by simp [dictGet, List.find?, hp]⟩
    · have hk : k ∈ rest.map Prod.fst := by
        simp only [List.map_cons, List.mem_cons] at h
        exact h.resolve_left (fun he => hp he.symm)
      obtain ⟨v, hv⟩ := ih hk
      refine ⟨v, ?_⟩
      simp only [dictGet, List.find?] at hv ⊢
      have : (p.1 == k) = false := by simp [hp]
      rw [this]
      exact hv

theorem foldl_max_spec (as : List Nat) (a : Nat) :
    (as.foldl max a = a ∨ as.foldl max a ∈ as) ∧
      a ≤ as.foldl max a ∧ ∀ x ∈ as, x ≤ as.foldl max a := by
  induction as generalizing a with
  | nil => exact ⟨Or.inl rfl, Nat.le_refl a, by intro x hx; simp at hx⟩
  | cons b bs ih =>
    obtain ⟨hmem, hle, hub⟩ := ih (max a b)
    simp only [List.foldl_cons]
    refine ⟨?_, ?_, ?_⟩
    · rcases hmem with he | hin
      · rw [he]
        rcases Nat.le_total a b with hab | hba
        · exact Or.inr (by simp [Nat.max_eq_right hab])
        · exact Or.inl (Nat.max_eq_left hba)
      · exact Or.inr (List.mem_cons_of_mem b hin)
    · exact Nat.le_trans (Nat.le_max_left a b) hle
    · intro x hx
      rcases List.mem_cons.mp hx with rfl | hin
      · exact Nat.le_trans (Nat.le_max_right a x) hle
      · exact hub x hin

theorem nat_max?_spec (l : List Nat) (m : Nat) (h : l.max? = some m) :
    m ∈ l ∧ ∀ x ∈ l, x ≤ m := by
  cases l with
  | nil => simp [List.max?] at h
  | cons a as =>
    simp only [List.max?, Option.some.injEq] at h
    obtain ⟨hmem, hle, hub⟩ := foldl_max_spec as a
    subst h
    refine ⟨?_, ?_⟩
    · rcases hmem with he | hin
      · rw [he]; exact List.mem_cons_self a as
      · exact List.mem_cons_of_mem a hin
    · intro x hx
      rcases List.mem_cons.mp hx with rfl | hin
      · exact hle
      · exact hub x hin

/-- Helper shared by the GID-resolution claims: whenever some registered
firstgid is at most `gid`, resolution picks the greatest such firstgid
`key`, and returns (without error) the tile found at local id
`gid - key` in that tileset — `none` when absent. -/
theorem get_tile_by_gid_spec (reg : List (Nat × TileSet09)) (gid : Nat)
    (h : ∃ p ∈ reg, p.1 ≤ gid) :
    ∃ key ts, dictGet reg key = some ts ∧
      key ∈ reg.map Prod.fst ∧ key ≤ gid ∧
      (∀ k ∈ reg.map Prod.fst, k ≤ gid → k ≤ key) ∧
      get_tile_by_gid gid reg = .ok (tileLookup ts (gid - key)) := by
  obtain ⟨p, hp, hple⟩ := h
  set keys := reg.map Prod.fst with hkeys
  set filt := keys.filter (fun key => key ≤ gid) with hfilt
  have hpk : p.1 ∈ filt := by
    rw [hfilt]
    refine List.mem_filter.mpr ⟨?_, by simpa using hple⟩
    exact List.mem_map.mpr ⟨p, hp, rfl⟩
  have hne : filt ≠ [] := fun he => by rw [he] at hpk; simp at hpk
  obtain ⟨m, hm⟩ : ∃ m, filt.max? = some m := by
    cases hmx : filt.max? with
    | none => exact absurd (List.max?_eq_none_iff.mp hmx) hne
    | some m => exact ⟨m, rfl⟩
  obtain ⟨hmmem, hmax⟩ := nat_max?_spec filt m hm
  have hmkeys : m ∈ keys := (List.mem_filter.mp hmmem).1
  have hmle : m ≤ gid := by simpa using (List.mem_filter.mp hmmem).2
  obtain ⟨ts, hts⟩ := dictGet_of_mem_keys reg m hmkeys
  refine ⟨m, ts, hts, hmkeys, hmle, ?_, ?_⟩
  · intro k hk hkle
    exact hmax k (List.mem_filter.mpr ⟨hk, by simpa using hkle⟩)
  · unfold get_tile_by_gid get_tile_set_key
    rw [← hkeys, ← hfilt, hm]
    simp only
    rw [hts]
    obtain ⟨nm, tl⟩ := ts
    unfold tileLookup
    cases tl <;> rfl

/-- C4: resolving a gid picks the tileset whose firstgid is the greatest
registered value at most the gid and computes local id `gid - firstgid`;
a missing Tile record at that local id gives `none` (absent), not an
error.  On the example registry (firstgids 1/10/50 with tile counts
5/30/20) the six sample gids resolve to exactly the claimed pairs.  The
last two conjuncts exercise the absent case: gid 49 picks the pair
(ts2, 39), and since ts2 (tile_count 30) has no Tile record at local id
39, the tile lookup is `none` — while gid 5's pair (ts1, 4) does carry a
Tile record. -/
theorem C4_gid_resolution :
    (∀ (reg : List (Nat × TileSet09)) (gid : Nat),
      (∃ p ∈ reg, p.1 ≤ gid) →
      ∃ key ts, dictGet reg key = some ts ∧
        key ∈ reg.map Prod.fst ∧ key ≤ gid ∧
        (∀ k ∈ reg.map Prod.fst, k ≤ gid → k ≤ key) ∧
        get_tile_by_gid gid reg = .ok (tileLookup ts (gid - key))) ∧
    resolve_pair 1 exampleReg = .ok ("ts1", 0) ∧
    resolve_pair 5 exampleReg = .ok ("ts1", 4) ∧
    resolve_pair 10 exampleReg = .ok ("ts2", 0) ∧
    resolve_pair 49 exampleReg = .ok ("ts2", 39) ∧
    resolve_pair 50 exampleReg = .ok ("ts3", 0) ∧
    resolve_pair 69 exampleReg = .ok ("ts3", 19) ∧
    get_tile_by_gid 49 exampleReg = .ok none ∧
    get_tile_by_gid 5 exampleReg = .ok (some ⟨4, some "ts1"⟩) := by
  refine ⟨get_tile_by_gid_spec, ?_, ?_, ?_, ?_, ?_, ?_, ?_, ?_⟩ <;> decide

/-- C4 witness: the quantified half of `C4_gid_resolution` applied at the
concrete registry and gid 49, its hypothesis discharged by evaluation. -/
theorem C4_gid_resolution_witness :
    ∃ key ts, dictGet exampleReg key = some ts ∧
      key ∈ exampleReg.map Prod.fst ∧ key ≤ 49 ∧
      (∀ k ∈ exampleReg.map Prod.fst, k ≤ 49 → k ≤ key) ∧
      get_tile_by_gid 49 exampleReg = .ok (tileLookup ts (49 - key)) :=
  C4_gid_resolution.1 exampleReg 49 ⟨(1, ⟨"ts1", some (mkTiles 5 "ts1")⟩), by decide⟩

/-- C9: a gid strictly below every registered firstgid (for example gid 0,
the empty cell, when firstgids start at 1) makes `_get_tile_set_key` take
`max()` of an empty candidate list, which raises `ValueError` — the
result is an error, not the `None` used for sparse-tileset absence. -/
theorem C9_gid_below_all_firstgids_errors (reg : List (Nat × TileSet09)) (gid : Nat)
    (h : ∀ p ∈ reg, gid < p.1) :
    get_tile_by_gid gid reg = .error .valueError := by
  have hfilt : (reg.map Prod.fst).filter (fun key => key ≤ gid) = [] := by
    rw [List.filter_eq_nil_iff]
    intro k hk
    simp only [List.mem_map] at hk
    obtain ⟨p, hp, rfl⟩ := hk
    simpa using Nat.not_le.mpr (h p hp)
  unfold get_tile_by_gid get_tile_set_key
  rw [hfilt]
  rfl

theorem C9_gid_below_all_firstgids_errors_witness :
    (∀ p ∈ exampleReg, 0 < p.1) ∧ get_tile_by_gid 0 exampleReg = .error .valueError :=
  ⟨by decide, C9_gid_below_all_firstgids_errors exampleReg 0 (by decide)⟩

theorem dictSet_fresh {κ α : Type} [BEq κ] [LawfulBEq κ]
    (d : List (κ × α)) (k : κ) (v : α) (h : k ∉ d.map Prod.fst) :
    dictSet d k v = d ++ [(k, v)] := by
  unfold dictSet
  have : d.any (fun p => p.1 == k) = false := by
    rw [List.any_eq_false]
    intro p hp hpk
    exact h (List.mem_map.mpr ⟨p, hp, by simpa using hpk⟩)
  rw [this]
  simp

theorem find?_none_of_all_not {α : Type} (p : α → Bool) (l : List α)
    (h : ∀ x ∈ l, p x = false) : l.find? p = none :=
  List.find?_eq_none.mpr (fun x hx => by simp [h x hx])

theorem find?_append_left_none {α : Type} (p : α → Bool) (l1 l2 : List α)
    (h : l1.find? p = none) : (l1 ++ l2).find? p = l2.find? p := by
  induction l1 with
  | nil => simp
  | cons a l ih =>
    simp only [List.find?] at h ⊢
    cases hp : p a with
    | true => rw [hp] at h; simp at h
    | false =>
      rw [hp] at h
      simpa using ih h

/-- Helper: one step of the pass on an object whose pending tileset's
name matches no registered tileset, from a nonempty registry: the new
tileset is appended at `new_firstgid = highest + tile_count(highest)`,
and the object's gid is shifted by `new_firstgid - 1` with the payload
cleared. -/
theorem inject_step_fresh (reg : List (Nat × Tileset2)) (o : PassObj)
    (nt : RawTilesetData) (highest : Nat) (tsH : Tileset2)
    (h1 : o.new_tileset = some nt)
    (h2 : ∀ ts ∈ reg.map Prod.snd, ts.name ≠ nt.name)
    (h3 : (reg.map Prod.fst).max? = some highest)
    (h4 : dictGet reg highest = some tsH)
    (h5 : 1 ≤ tsH.tile_count) :
    inject_step reg o =
      .ok (reg ++ [(highest + tsH.tile_count,
                    parse_tileset_model nt (highest + tsH.tile_count))],
           { o with gid := o.gid + (highest + tsH.tile_count - 1),
                    new_tileset := none, new_tileset_path := none }) := by
  have hub := (nat_max?_spec _ _ h3).2
  have hfreshKey : highest + tsH.tile_count ∉ reg.map Prod.fst := by
    intro hmem
    have := hub _ hmem
    omega
  have hfind : (reg.map Prod.snd).find? (fun val => val.name == nt.name) = none := by
    refine find?_none_of_all_not _ _ (fun ts hts => ?_)
    simpa using h2 ts hts
  unfold inject_step
  rw [h1]
  simp only
  rw [hfind, h3]
  simp only
  rw [h4]
  simp only
  rw [dictSet_fresh _ _ _ hfreshKey]

/-- Helper: one step of the pass on an object whose pending tileset's
name IS already registered: no registration, gid rewritten against the
existing tileset's firstgid, payload cleared. -/
theorem inject_step_found (reg : List (Nat × Tileset2)) (o : PassObj)
    (nt : RawTilesetData) (ts : Tileset2)
    (h1 : o.new_tileset = some nt)
    (h2 : (reg.map Prod.snd).find? (fun val => val.name == nt.name) = some ts) :
    inject_step reg o =
      .ok (reg, { o with gid := o.gid + (ts.firstgid - 1),
                         new_tileset := none, new_tileset_path := none }) := by
  unfold inject_step
  rw [h1]
  simp only
  rw [h2]

/-- C5: for a TileObject whose pending tileset's name matches no
registered tileset (and a nonempty registry, `highest` its greatest
firstgid, `tsH` the tileset registered there), the pass registers the new
tileset at `new_firstgid = highest + tsH.tile_count` (appended, since
that key is fresh), rewrites the object's gid to
`template-local gid + (new_firstgid - 1)`, and clears the pending
payload. -/
theorem C5_inject_fresh_tileset (reg : List (Nat × Tileset2)) (o : PassObj)
    (nt : RawTilesetData) (highest : Nat) (tsH : Tileset2)
    (h1 : o.new_tileset = some nt)
    (h2 : ∀ ts ∈ reg.map Prod.snd, ts.name ≠ nt.name)
    (h3 : (reg.map Prod.fst).max? = some highest)
    (h4 : dictGet reg highest = some tsH)
    (h5 : 1 ≤ tsH.tile_count) :
    inject_step reg o =
      .ok (reg ++ [(highest + tsH.tile_count,
                    parse_tileset_model nt (highest + tsH.tile_count))],
           { o with gid := o.gid + (highest + tsH.tile_count - 1),
                    new_tileset := none, new_tileset_path := none }) :=
  inject_step_fresh reg o nt highest tsH h1 h2 h3 h4 h5

theorem C5_inject_fresh_tileset_witness :
    inject_step [(1, ⟨"base", 4, 1⟩)] ⟨2, some ⟨"trees", 3⟩, some []⟩ =
      .ok ([(1, ⟨"base", 4, 1⟩), (5, ⟨"trees", 3, 5⟩)], ⟨6, none, none⟩) :=
  C5_inject_fresh_tileset [(1, ⟨"base", 4, 1⟩)] ⟨2, some ⟨"trees", 3⟩, some []⟩
    ⟨"trees", 3⟩ 1 ⟨"base", 4, 1⟩ rfl (by decide) rfl rfl (by decide)

/-- C6: two TileObjects whose templates bundle same-named tilesets (the
name not yet registered): processing them in order registers EXACTLY one
new tileset — the registry grows by the single entry at
`new_firstgid = highest + tsH.tile_count` — and both objects' gids are
rewritten by `new_firstgid - 1` (the second object matches the tileset
the first one registered, by name), landing inside the new tileset's
range `[new_firstgid, new_firstgid + tile_count)` whenever the
template-local gids lie in `1 .. tile_count`. -/
theorem C6_two_objects_one_registration (reg : List (Nat × Tileset2))
    (o1 o2 : PassObj) (nt1 nt2 : RawTilesetData) (highest : Nat) (tsH : Tileset2)
    (h1 : o1.new_tileset = some nt1) (h2 : o2.new_tileset = some nt2)
    (hname : nt2.name = nt1.name)
    (hfresh : ∀ ts ∈ reg.map Prod.snd, ts.name ≠ nt1.name)
    (h3 : (reg.map Prod.fst).max? = some highest)
    (h4 : dictGet reg highest = some tsH)
    (h5 : 1 ≤ tsH.tile_count)
    (hg1 : 1 ≤ o1.gid) (hg1c : o1.gid ≤ nt1.tilecount)
    (hg2 : 1 ≤ o2.gid) (hg2c : o2.gid ≤ nt1.tilecount) :
    inject_pass reg [o1, o2] =
      .ok (reg ++ [(highest + tsH.tile_count,
                    parse_tileset_model nt1 (highest + tsH.tile_count))],
           [{ o1 with gid := o1.gid + (highest + tsH.tile_count - 1),
                      new_tileset := none, new_tileset_path := none },
            { o2 with gid := o2.gid + (highest + tsH.tile_count - 1),
                      new_tileset := none, new_tileset_path := none }]) ∧
    (highest + tsH.tile_count ≤ o1.gid + (highest + tsH.tile_count - 1) ∧
      o1.gid + (highest + tsH.tile_count - 1) <
        highest + tsH.tile_count + nt1.tilecount) ∧
    (highest + tsH.tile_count ≤ o2.gid + (highest + tsH.tile_count - 1) ∧
      o2.gid + (highest + tsH.tile_count - 1) <
        highest + tsH.tile_count + nt1.tilecount) := by
  have hstep1 := inject_step_fresh reg o1 nt1 highest tsH h1 hfresh h3 h4 h5
  have hfind2 :
      ((reg ++ [(highest + tsH.tile_count,
                 parse_tileset_model nt1 (highest + tsH.tile_count))]).map
          Prod.snd).find? (fun val => val.name == nt2.name) =
        some (parse_tileset_model nt1 (highest + tsH.tile_count)) := by
    rw [List.map_append]
    rw [find?_append_left_none _ _ _ (find?_none_of_all_not _ _ (fun ts hts => by
      have := hfresh ts hts
      simp [hname, this]))]
    simp [List.find?, parse_tileset_model, hname]
  have hstep2 := inject_step_found _ o2 nt2 _ h2 hfind2
  refine ⟨?_, by omega, by omega⟩
  simp only [inject_pass, hstep1, hstep2]
  simp [parse_tileset_model]

theorem find?_append {α : Type} (p : α → Bool) (l1 l2 : List α) :
    (l1 ++ l2).find? p =
      match l1.find? p with
      | some a => some a
      | none => l2.find? p := by
  induction l1 with
  | nil => simp
  | cons a l ih =>
    simp only [List.cons_append, List.find?]
    cases p a <;> simp [ih]

theorem find?_map_replace_ne {κ α : Type} [BEq κ] [LawfulBEq κ]
    (d : List (κ × α)) (k k2 : κ) (v : α) (hne : k2 ≠ k) :
    (d.map (fun p => if p.1 == k then (k, v) else p)).find?
        (fun p => p.1 == k2) =
      d.find? (fun p => p.1 == k2) := by
  induction d with
  | nil => simp
  | cons q rest ih =>
    simp only [List.map_cons, List.find?]
    by_cases hq : q.1 = k
    · have h1 : (q.1 == k) = true := by simpa using hq
      have h2 : (k == k2) = false := by
        simp only [beq_eq_false_iff_ne]
        exact fun he => hne he.symm
      have h3 : (q.1 == k2) = false := by
        simp only [beq_eq_false_iff_ne]
        rw [hq]
        exact fun he => hne he.symm
      simp only [h1, if_true, h2, h3]
      exact ih
    · have h1 : (q.1 == k) = false := by simpa using hq
      simp only [h1, if_false]
      cases hq2 : (q.1 == k2) <;> simp [hq2, ih]

theorem find?_map_replace_eq {κ α : Type} [BEq κ] [LawfulBEq κ]
    (d : List (κ × α)) (k : κ) (v : α)
    (hany : d.any (fun p => p.1 == k) = true) :
    (d.map (fun p => if p.1 == k then (k, v) else p)).find?
        (fun p => p.1 == k) = some (k, v) := by
  induction d with
  | nil => simp at hany
  | cons q rest ih =>
    simp only [List.map_cons, List.find?]
    by_cases hq : q.1 = k
    · have h1 : (q.1 == k) = true := by simpa using hq
      simp [h1]
    · have h1 : (q.1 == k) = false := by simpa using hq
      have hany2 : rest.any (fun p => p.1 == k) = true := by
        simp only [List.any_cons, h1, Bool.false_or] at hany
        exact hany
      simp only [h1, Bool.false_eq_true, if_false, List.find?]
      exact ih hany2

/-- Lookup after dict assignment: the assigned key reads back the new
value, every other key is untouched. -/
theorem dictGet_dictSet {κ α : Type} [BEq κ] [LawfulBEq κ] [DecidableEq κ]
    (d : List (κ × α)) (k k2 : κ) (v : α) :
    dictGet (dictSet d k v) k2 = if k2 = k then some v else dictGet d k2 := by
  unfold dictSet dictGet
  by_cases hany : d.any (fun p => p.1 == k) = true
  · rw [hany]
    simp only [if_true]
    by_cases hk : k2 = k
    · subst hk
      rw [find?_map_replace_eq d k2 v hany]
      simp
    · rw [find?_map_replace_ne d k k2 v hk]
      simp [hk]
  · have hany' : d.any (fun p => p.1 == k) = false := by
      cases h : d.any (fun p => p.1 == k) with
      | true => exact absurd h hany
      | false => rfl
    rw [hany']
    simp only [Bool.false_eq_true, if_false]
    rw [find?_append]
    by_cases hk : k2 = k
    · subst hk
      have hnone : d.find? (fun p => p.1 == k2) = none := by
        refine find?_none_of_all_not _ _ (fun p hp => ?_)
        have := List.any_eq_false.mp hany' p hp
        simpa using this
      rw [hnone]
      simp [List.find?]
    · have hke : (k == k2) = false := by
        simp only [beq_eq_false_iff_ne]
        exact fun he => hk he.symm
      cases hf : d.find? (fun p => p.1 == k2) with
      | some a => simp [hk]
      | none => simp [List.find?, hke, hk]

/-- Helper for C10: with no `file`/`color` triple in sight the fold never
errors, and the final dict maps each name to the raw value of its LAST
triple, falling back to whatever the accumulator already held. -/
theorem properties_cast_raw_spec (raw : List RawProperty)
    (acc : List (String × PropertyValue))
    (h : ∀ p ∈ raw, p.type ≠ "file" ∧ p.type ≠ "color") :
    ∃ m, properties_cast raw acc = .ok m ∧
      ∀ nm, dictGet m nm =
        match raw.reverse.find? (fun p => p.name == nm) with
        | some p => some (.raw p.value)
        | none => dictGet acc nm := by
  induction raw generalizing acc with
  | nil => exact ⟨acc, rfl, fun nm => by simp⟩
  | cons p rest ih =>
    have hp := h p (List.mem_cons_self p rest)
    have hv : cast_property_value p = .ok (.raw p.value) := by
      unfold cast_property_value
      have h1 : (p.type == "file") = false := by simpa using hp.1
      have h2 : (p.type == "color") = false := by simpa using hp.2
      simp [h1, h2]
    obtain ⟨m, hm, hchar⟩ :=
      ih (dictSet acc p.name (.raw p.value))
        (fun q hq => h q (List.mem_cons_of_mem p hq))
    refine ⟨m, ?_, ?_⟩
    · unfold properties_cast
      rw [hv]
      exact hm
    · intro nm
      rw [hchar nm]
      simp only [List.reverse_cons]
      rw [find?_append]
      cases hf : rest.reverse.find? (fun q => q.name == nm) with
      | some q => simp
      | none =>
        simp only [List.find?]
        rw [dictGet_dictSet]
        by_cases hnm : p.name = nm
        · have : (p.name == nm) = true := by simpa using hnm
          rw [this]
          simp [hnm]
        · have : (p.name == nm) = false := by simpa using hnm
          rw [this]
          simp only
          have : ¬(nm = p.name) := fun he => hnm he.symm
          simp [this]

/-- C7 counterexample: a raw JSON tile layer with NO base64 encoding but
a `compression` of `"gzip"` decodes successfully — the compression field
is silently ignored — instead of failing.  (Input: plain integer-array
data `[1, 2]`, width 2.) -/
theorem C7_json_path_ignores_compression_counterexample :
    cast_tile_layer_data (fun b => .ok b) (fun b => .ok b) none
      (fun _ => .error .valueError) none (some "gzip") (.ints [1, 2]) 2 =
      .ok [[1, 2]] := by
  decide

/-- C7 (amended): the XML path's `_decode_data` does validate the
pairing — any non-`None` compression together with an encoding other
than `base64` fails with a `ValueError`, for every input — but the JSON
tile-layer path performs no such validation: when the encoding is not
base64 the compression field is ignored and the plain-array data decodes
successfully. -/
theorem C7_compression_only_with_base64 :
    (∀ (zlibD gzipD : List Nat → Exc (List Nat)) (b64 : String → Exc (List Nat))
      (dataText : String) (width : Nat) (encoding : String) (c : String),
      encoding ≠ "base64" →
      decode_data zlibD gzipD b64 dataText width encoding (some c) =
        .error .valueError) ∧
    (∀ (zlibD gzipD : List Nat → Exc (List Nat))
      (zstdD : Option (List Nat → List Nat)) (b64 : String → Exc (List Nat))
      (compression : Option String) (l : List Nat) (width : Nat),
      cast_tile_layer_data zlibD gzipD zstdD b64 none compression (.ints l) width =
        .ok (convert_raw_tile_layer_data l width)) := by
  constructor
  · intro zlibD gzipD b64 dataText width encoding c henc
    unfold decode_data
    by_cases hbc : ["base64", "csv"].contains encoding
    · have : (encoding == "base64") = false := by
        cases he : encoding == "base64" with
        | true => exact absurd (by simpa using he) henc
        | false => rfl
      simp [hbc, this]
    · have hfalse : (["base64", "csv"].contains encoding) = false := by
        cases hc : ["base64", "csv"].contains encoding with
        | true => exact absurd hc hbc
        | false => rfl
      simp only [hfalse, Bool.not_false, if_true]
  · intro zlibD gzipD zstdD b64 compression l width
    rfl

theorem C7_compression_only_with_base64_witness :
    ("csv" ≠ "base64") ∧
      decode_data (fun b => .ok b) (fun b => .ok b) (fun _ => .error .valueError)
        "x" 2 "csv" (some "gzip") = .error .valueError :=
  ⟨by decide,
   C7_compression_only_with_base64.1 (fun b => .ok b) (fun b => .ok b)
     (fun _ => .error .valueError) "x" 2 "csv" "gzip" (by decide)⟩

theorem kind_cast_tile (raw : RawTiledObject) (nt : Option RawTilesetData)
    (np : Option (List String)) (obj : TiledObj)
    (h : cast_tile raw nt np = .ok obj) : kindOf obj.variant = .tileK := by
  unfold cast_tile at h
  cases hg : raw.gid <;> rw [hg] at h
  · cases h
  · cases hc : get_common_attributes raw <;> rw [hc] at h
    · cases h
    · cases h; rfl

theorem kind_cast_ellipse (raw : RawTiledObject) (obj : TiledObj)
    (h : cast_ellipse raw = .ok obj) : kindOf obj.variant = .ellipseK := by
  unfold cast_ellipse at h
  cases hc : get_common_attributes raw <;> rw [hc] at h
  · cases h
  · cases h; rfl

theorem kind_cast_point (raw : RawTiledObject) (obj : TiledObj)
    (h : cast_point raw = .ok obj) : kindOf obj.variant = .pointK := by
  unfold cast_point at h
  cases hc : get_common_attributes raw <;> rw [hc] at h
  · cases h
  · cases h; rfl

theorem kind_cast_rectangle (raw : RawTiledObject) (obj : TiledObj)
    (h : cast_rectangle raw = .ok obj) : kindOf obj.variant = .rectangleK := by
  unfold cast_rectangle at h
  cases hc : get_common_attributes raw <;> rw [hc] at h
  · cases h
  · cases h; rfl

theorem kind_cast_polygon (raw : RawTiledObject) (obj : TiledObj)
    (h : cast_polygon raw = .ok obj) : kindOf obj.variant = .polygonK := by
  unfold cast_polygon at h
  cases hp : raw.polygon <;> rw [hp] at h
  · cases h
  · cases hc : get_common_attributes raw <;> rw [hc] at h
    · cases h
    · cases h; rfl

theorem kind_cast_polyline (raw : RawTiledObject) (obj : TiledObj)
    (h : cast_polyline raw = .ok obj) : kindOf obj.variant = .polylineK := by
  unfold cast_polyline at h
  cases hp : raw.polyline <;> rw [hp] at h
  · cases h
  · cases hc : get_common_attributes raw <;> rw [hc] at h
    · cases h
    · cases h; rfl

theorem kind_cast_text (raw : RawTiledObject) (obj : TiledObj)
    (h : cast_text raw = .ok obj) : kindOf obj.variant = .textK := by
  unfold cast_text at h
  split at h
  · cases h
  · split at h
    · cases h
    · split at h
      · cases h
      · cases h; rfl

/-- C3 counterexample: a record carrying both a `point` marker and a
`gid` (here gid 5) is parsed as a TILE object, not as a Point — `cast`
checks `gid` before ever consulting `_get_caster`'s priority list. -/
theorem C3_point_and_gid_parses_as_tile :
    (cast (fun _ => none) (fun _ => none) pgRecord none).map
        (fun o => kindOf o.variant) = .ok .tileK ∧
      (Except.ok VKind.tileK : Exc VKind) ≠ .ok .pointK := by
  exact ⟨rfl, by decide⟩

/-- C3 (amended): for every record without a template reference, the
parser's dispatch is by first match in the fixed priority order
gid-present (truthy) first, then ellipse-marker, point-marker,
polygon-points, polyline-points, text-payload, else Rectangle; in
particular a record carrying both a `point` marker and a `gid` is parsed
as a Tile.  Dispatch is a pure function of the record, hence
deterministic. -/
theorem C3_dispatch_priority (fsT : List String → Option TemplateFile)
    (fsTs : List String → Option RawTilesetData) (raw : RawTiledObject)
    (pd : Option (List String)) (obj : TiledObj)
    (htmpl : truthyStr raw.template = false)
    (hok : cast fsT fsTs raw pd = .ok obj) :
    kindOf obj.variant = dispatch_kind_spec raw := by
  have hok' : castAfterTemplate raw none none = .ok obj := by
    unfold cast at hok
    rw [htmpl] at hok
    simpa using hok
  unfold castAfterTemplate at hok'
  unfold dispatch_kind_spec
  cases h1 : truthyNat raw.gid <;> rw [h1] at hok'
  case true =>
    simp only [if_true]
    exact kind_cast_tile raw none none obj (by simpa using hok')
  case false =>
    simp only [Bool.false_eq_true, if_false]
    have hok2 : get_caster_apply raw = .ok obj := by simpa using hok'
    unfold get_caster_apply at hok2
    cases h2 : truthyBool raw.ellipse <;> rw [h2] at hok2
    case true => exact kind_cast_ellipse raw obj (by simpa using hok2)
    case false =>
    simp only [Bool.false_eq_true, if_false]
    cases h3 : truthyBool raw.point <;> rw [h3] at hok2
    case true => exact kind_cast_point raw obj (by simpa using hok2)
    case false =>
    simp only [Bool.false_eq_true, if_false]
    rw [h1] at hok2
    cases h4 : truthyList raw.polygon <;> rw [h4] at hok2
    case true => exact kind_cast_polygon raw obj (by simpa using hok2)
    case false =>
    simp only [Bool.false_eq_true, if_false]
    cases h5 : truthyList raw.polyline <;> rw [h5] at hok2
    case true => exact kind_cast_polyline raw obj (by simpa using hok2)
    case false =>
    simp only [Bool.false_eq_true, if_false]
    cases h6 : truthyText raw.text <;> rw [h6] at hok2
    case true => exact kind_cast_text raw obj (by simpa using hok2)
    case false =>
    simp only [Bool.false_eq_true, if_false]
    exact kind_cast_rectangle raw obj (by simpa using hok2)

/-- C3 witness: the amended dispatch theorem applied at the concrete
point-and-gid record (its hypotheses discharged by evaluation): the
parsed variant is the Tile branch the spec-side priority function picks. -/
theorem C3_dispatch_priority_witness :
    kindOf (ObjVariant.tileV 5 none none) = dispatch_kind_spec pgRecord :=
  C3_dispatch_priority (fun _ => none) (fun _ => none) pgRecord none
    ⟨⟨1, (0, 0), (0, 0), 0, true, "", none, []⟩, .tileV 5 none none⟩ rfl rfl

theorem string_not_empty_isEmpty_false (t : String) (h : t ≠ "") :
    t.isEmpty = false := by
  cases he : t.isEmpty
  · rfl
  · exact absurd ((String.isEmpty_iff t).mp he) h

/-- C8: template handling in `cast`.
(1) A record naming a template with no `parent_dir` fails with the
`RuntimeError` raised at the missing-parent-directory check (the spec's
ConfigurationError — the source defines no exception classes of its own).
(2) The merge keeps the host record's `id` and overwrites every other
field that the template's object carries, keeping the host's value for
fields the template omits.
(3) With a `parent_dir`, a loadable template bundling a tileset reference
and a loadable tileset file, `cast` proceeds on the merged record with
the loaded tileset as the pending payload.
(4) When the (merged) record has a gid, the parsed Tile carries exactly
that pending tileset and its directory as `new_tileset` /
`new_tileset_path`. -/
theorem C8_template_merge_and_pending_tileset :
    (∀ (fsT : List String → Option TemplateFile)
       (fsTs : List String → Option RawTilesetData)
       (raw : RawTiledObject) (t : String),
       raw.template = some t → t ≠ "" →
       cast fsT fsTs raw none = .error .runtimeError) ∧
    (∀ (raw : RawTiledObject) (p : TemplatePatch),
       (applyPatch raw p).id = raw.id ∧
       (∀ v, p.gid = some v → (applyPatch raw p).gid = some v) ∧
       (p.gid = none → (applyPatch raw p).gid = raw.gid) ∧
       (∀ v, p.template = some v → (applyPatch raw p).template = some v) ∧
       (p.template = none → (applyPatch raw p).template = raw.template) ∧
       (∀ v, p.x = some v → (applyPatch raw p).x = v) ∧
       (p.x = none → (applyPatch raw p).x = raw.x) ∧
       (∀ v, p.y = some v → (applyPatch raw p).y = v) ∧
       (p.y = none → (applyPatch raw p).y = raw.y) ∧
       (∀ v, p.width = some v → (applyPatch raw p).width = v) ∧
       (p.width = none → (applyPatch raw p).width = raw.width) ∧
       (∀ v, p.height = some v → (applyPatch raw p).height = v) ∧
       (p.height = none → (applyPatch raw p).height = raw.height) ∧
       (∀ v, p.rot = some v → (applyPatch raw p).rot = v) ∧
       (p.rot = none → (applyPatch raw p).rot = raw.rot) ∧
       (∀ v, p.visible = some v → (applyPatch raw p).visible = v) ∧
       (p.visible = none → (applyPatch raw p).visible = raw.visible) ∧
       (∀ v, p.name = some v → (applyPatch raw p).name = v) ∧
       (p.name = none → (applyPatch raw p).name = raw.name) ∧
       (∀ v, p.type = some v → (applyPatch raw p).type = some v) ∧
       (p.type = none → (applyPatch raw p).type = raw.type) ∧
       (∀ v, p.properties = some v → (applyPatch raw p).properties = some v) ∧
       (p.properties = none → (applyPatch raw p).properties = raw.properties) ∧
       (∀ v, p.ellipse = some v → (applyPatch raw p).ellipse = some v) ∧
       (p.ellipse = none → (applyPatch raw p).ellipse = raw.ellipse) ∧
       (∀ v, p.point = some v → (applyPatch raw p).point = some v) ∧
       (p.point = none → (applyPatch raw p).point = raw.point) ∧
       (∀ v, p.polygon = some v → (applyPatch raw p).polygon = some v) ∧
       (p.polygon = none → (applyPatch raw p).polygon = raw.polygon) ∧
       (∀ v, p.polyline = some v → (applyPatch raw p).polyline = some v) ∧
       (p.polyline = none → (applyPatch raw p).polyline = raw.polyline) ∧
       (∀ v, p.text = some v → (applyPatch raw p).text = some v) ∧
       (p.text = none → (applyPatch raw p).text = raw.text)) ∧
    (∀ (fsT : List String → Option TemplateFile)
       (fsTs : List String → Option RawTilesetData)
       (raw : RawTiledObject) (d : List String) (t : String)
       (tf : TemplateFile) (ref : RawTilesetRef) (tsData : RawTilesetData),
       raw.template = some t → t ≠ "" →
       fsT (d ++ [t]) = some tf → tf.tileset = some ref →
       fsTs (d ++ [ref.source]) = some tsData →
       cast fsT fsTs raw (some d) =
         castAfterTemplate (applyPatch raw tf.object) (some tsData) (some d)) ∧
    (∀ (raw : RawTiledObject) (nt : Option RawTilesetData)
       (np : Option (List String)) (g : Nat) (obj : TiledObj),
       raw.gid = some g → cast_tile raw nt np = .ok obj →
       obj.variant = .tileV g nt np) := by
  refine ⟨?_, ?_, ?_, ?_⟩
  · intro fsT fsTs raw t h1 h2
    have hemp := string_not_empty_isEmpty_false t h2
    unfold cast
    rw [h1]
    simp [truthyStr, hemp]
  · intro raw p
    refine ⟨rfl,
      fun v hv => by simp [applyPatch, hv], fun hv => by simp [applyPatch, hv],
      fun v hv => by simp [applyPatch, hv], fun hv => by simp [applyPatch, hv],
      fun v hv => by simp [applyPatch, hv], fun hv => by simp [applyPatch, hv],
      fun v hv => by simp [applyPatch, hv], fun hv => by simp [applyPatch, hv],
      fun v hv => by simp [applyPatch, hv], fun hv => by simp [applyPatch, hv],
      fun v hv => by simp [applyPatch, hv], fun hv => by simp [applyPatch, hv],
      fun v hv => by simp [applyPatch, hv], fun hv => by simp [applyPatch, hv],
      fun v hv => by simp [applyPatch, hv], fun hv => by simp [applyPatch, hv],
      fun v hv => by simp [applyPatch, hv], fun hv => by simp [applyPatch, hv],
      fun v hv => by simp [applyPatch, hv], fun hv => by simp [applyPatch, hv],
      fun v hv => by simp [applyPatch, hv], fun hv => by simp [applyPatch, hv],
      fun v hv => by simp [applyPatch, hv], fun hv => by simp [applyPatch, hv],
      fun v hv => by simp [applyPatch, hv], fun hv => by simp [applyPatch, hv],
      fun v hv => by simp [applyPatch, hv], fun hv => by simp [applyPatch, hv],
      fun v hv => by simp [applyPatch, hv], fun hv => by simp [applyPatch, hv],
      fun v hv => by simp [applyPatch, hv], fun hv => by simp [applyPatch, hv]⟩
  · intro fsT fsTs raw d t tf ref tsData h1 h2 hft htil hfts
    have hemp := string_not_empty_isEmpty_false t h2
    unfold cast
    rw [h1]
    simp only [truthyStr, hemp, Bool.not_false, if_true, Option.getD_some]
    rw [hft]
    simp only
    rw [htil]
    simp only
    have hd1 : (d ++ [t]).dropLast = d := by simp
    rw [hd1, hfts]
    simp only
    have hd2 : (d ++ [ref.source]).dropLast = d := by simp
    rw [hd2]
  · intro raw nt np g obj hgid hok
    unfold cast_tile at hok
    rw [hgid] at hok
    cases hc : get_common_attributes raw <;> rw [hc] at hok
    · cases hok
    · cases hok; rfl

/-- C8 witness: the no-parent-directory failure and the merged-record
continuation, at a concrete record/template/filesystem. -/
theorem C8_template_merge_and_pending_tileset_witness :
    cast fsT0 fsTs0 rawT0 none = .error .runtimeError ∧
    cast fsT0 fsTs0 rawT0 (some ["maps"]) =
      castAfterTemplate (applyPatch rawT0 tf0.object) (some ⟨"trees", 3⟩)
        (some ["maps"]) :=
  ⟨C8_template_merge_and_pending_tileset.1 fsT0 fsTs0 rawT0 "tpl.json" rfl
     (by decide),
   C8_template_merge_and_pending_tileset.2.2.1 fsT0 fsTs0 rawT0 ["maps"]
     "tpl.json" tf0 ⟨"trees.json"⟩ ⟨"trees", 3⟩ rfl (by decide) rfl rfl rfl⟩

/-- C10: every property triple whose type tag is neither `file` nor
`color` — any other tag, recognized or not — is stored under its name
with the raw wire value unchanged, and the conversion never raises: the
result dict maps each name to the raw value of its last triple. -/
theorem C10_other_type_tags_kept_raw (raw : List RawProperty)
    (h : ∀ p ∈ raw, p.type ≠ "file" ∧ p.type ≠ "color") :
    ∃ m, properties_cast raw [] = .ok m ∧
      ∀ nm, dictGet m nm =
        match raw.reverse.find? (fun p => p.name == nm) with
        | some p => some (.raw p.value)
        | none => none := by
  obtain ⟨m, hm, hchar⟩ := properties_cast_raw_spec raw [] h
  refine ⟨m, hm, fun nm => ?_⟩
  rw [hchar nm]
  cases raw.reverse.find? (fun p => p.name == nm) <;> simp [dictGet]

theorem C10_other_type_tags_kept_raw_witness :
    ∃ m, properties_cast props0 [] = .ok m ∧
      ∀ nm, dictGet m nm =
        match props0.reverse.find? (fun p => p.name == nm) with
        | some p => some (.raw p.value)
        | none => none :=
  C10_other_type_tags_kept_raw props0 (by decide)

theorem C6_two_objects_one_registration_witness :
    inject_pass [(1, ⟨"base", 4, 1⟩)]
        [⟨2, some ⟨"trees", 3⟩, some []⟩, ⟨3, some ⟨"trees", 3⟩, some []⟩] =
      .ok ([(1, ⟨"base", 4, 1⟩), (5, ⟨"trees", 3, 5⟩)],
           [⟨6, none, none⟩, ⟨7, none, none⟩]) ∧
    5 ≤ 6 ∧ 6 < 8 ∧ 5 ≤ 7 ∧ 7 < 8 := by
  have h := C6_two_objects_one_registration [(1, ⟨"base", 4, 1⟩)]
    ⟨2, some ⟨"trees", 3⟩, some []⟩ ⟨3, some ⟨"trees", 3⟩, some []⟩
    ⟨"trees", 3⟩ ⟨"trees", 3⟩ 1 ⟨"base", 4, 1⟩ rfl rfl rfl (by decide) rfl rfl
    (by decide) (by decide) (by decide) (by decide) (by decide)
  exact ⟨h.1, h.2.1.1, h.2.1.2, h.2.2.1, h.2.2.2⟩

end PyTiled
